import Mathlib

/-!
Verification of the trade-analysis coordinator (FastAPI server under
src/server/) against its natural-language specification.

The Python sources are shallowly embedded: pure fragments become Lean
functions, the SQLite rows and in-memory registries become explicit data
(structures, association lists, finite maps as functions), and the
external LLM provider is an oracle parameter (an inductive outcome fed to
the function that consumes the provider response).  Python floats carry
exact numeric data here and are modelled by ℚ; Python ints by Int;
Python str by String, with the string primitives used by the code
(slicing, startswith, split, int()) reimplemented structurally over
String.data so that every definition evaluates inside the kernel.
-/

/-! ## Python string primitives (structural, kernel-computable) -/

/-- Python s.startswith(p): p.data is a list prefix of s.data. -/
def pyStartsWith (s p : String) : Bool :=
  p.data.isPrefixOf s.data

/-- Python (c in s) for a single character c. -/
def pyContainsChar (s : String) (c : Char) : Bool :=
  s.data.contains c

/-- Python s[:n] slicing. -/
def pyTake (s : String) (n : Nat) : String :=
  String.mk (s.data.take n)

/-- Python s[n:] slicing. -/
def pyDrop (s : String) (n : Nat) : String :=
  String.mk (s.data.drop n)

/-- Value of a nonempty string of decimal digits, none on any non-digit.
Helper for pyToInt. -/
def pyDigits : List Char → Nat → Option Nat
  | [], acc => some acc
  | c :: cs, acc =>
      if c.isDigit then pyDigits cs (acc * 10 + (c.toNat - '0'.toNat)) else none

/-- Python int(s) restricted to base-10: optional surrounding whitespace,
optional single sign, then decimal digits; none models a raised
ValueError.  (CPython additionally accepts underscores between digits;
the checklist scores handled here never contain them.) -/
def pyToInt (s : String) : Option Int :=
  let cs := ((s.data.dropWhile Char.isWhitespace).reverse.dropWhile
      Char.isWhitespace).reverse
  match cs with
  | [] => none
  | '-' :: rest =>
      if rest = [] then none else (pyDigits rest 0).map (fun n => -(n : Int))
  | '+' :: rest =>
      if rest = [] then none else (pyDigits rest 0).map (fun n => (n : Int))
  | rest => (pyDigits rest 0).map (fun n => (n : Int))

/-! ## trade_tracker.log_trade_closed (src/server/trade_tracker.py:388-460)

A row of the trades table, restricted to the columns that
log_trade_closed reads or writes.  REAL columns become ℚ, INTEGER flag
columns become Bool (SQLite stores them as 0/1), TEXT columns String;
closed_at is NULL until set, hence Option. -/

structure TradeRecord where
  tp1_hit : Bool
  tp2_hit : Bool
  sl_hit : Bool
  close_price_tp1 : ℚ
  close_price_tp2 : ℚ
  pnl_pips : ℚ
  pnl_money : ℚ
  outcome : String
  status : String
  closed_at : Option String
  actual_entry : ℚ
  entry_min : ℚ
  entry_max : ℚ
  sl_pips : ℚ
  tp1_pips : ℚ
  tp2_pips : ℚ
  deriving DecidableEq

/-- Hit-flag update of log_trade_closed (trade_tracker.py:410-419): set
the flag matching the close reason; the cancelled and manual reasons set
nothing. -/
def update_hit_flags (t : TradeRecord) (close_reason : String)
    (close_price : ℚ) : TradeRecord :=
  if close_reason = "tp1" then
    { t with tp1_hit := true, close_price_tp1 := close_price }
  else if close_reason = "tp2" then
    { t with tp2_hit := true, close_price_tp2 := close_price }
  else if close_reason = "sl" then
    { t with sl_hit := true }
  else t

/-- Resolution branch of log_trade_closed (trade_tracker.py:432-454):
derive pip P&L and outcome from the updated flags (pip distances are
read from the original row trade, whose pip columns the update never
touches), then stamp closed_at and status.  The local variable entry
computed on line 434 of the source is never used afterwards and is
omitted. -/
def resolve_record (trade t2 : TradeRecord) (close_reason : String)
    (now : String) : TradeRecord :=
  let t3 : TradeRecord :=
    if t2.sl_hit && !t2.tp1_hit && !t2.tp2_hit then
      { t2 with pnl_pips := -trade.sl_pips, outcome := "loss" }
    else if t2.tp1_hit && t2.tp2_hit then
      { t2 with pnl_pips := trade.tp1_pips + trade.tp2_pips,
                outcome := "full_win" }
    else if t2.tp1_hit && t2.sl_hit then
      { t2 with pnl_pips := trade.tp1_pips, outcome := "partial_win" }
    else if close_reason = "cancelled" then
      { t2 with pnl_pips := 0, outcome := "cancelled" }
    else
      { t2 with outcome := "closed" }
  { t3 with closed_at := some now, status := "closed" }

/-- Update applied to a known trades row by log_trade_closed
(trade_tracker.py:388-460): accumulate monetary P&L, set the hit flag
for the reason, and, when the row is now resolved (SL hit, both TPs hit,
or the report is a cancellation), derive the pip P&L and outcome.  The
ticket argument is accepted and, as in the source, only logged; now
stands for datetime.now(timezone.utc).isoformat(). -/
def log_trade_closed (trade : TradeRecord) (ticket : Int) (close_price : ℚ)
    (close_reason : String) (profit : ℚ) (now : String) : TradeRecord :=
  let _ := ticket
  let t2 : TradeRecord :=
    update_hit_flags { trade with pnl_money := trade.pnl_money + profit }
      close_reason close_price
  if (t2.sl_hit || (t2.tp1_hit && t2.tp2_hit)) || close_reason == "cancelled"
  then resolve_record trade t2 close_reason now
  else t2

/-! ## TradeQueue: pending-trade hand-off with TTL (src/server/main.py:57-91)

PendingTrade as declared in src/server/models.py:99-111; times (Unix
timestamps from time.time()) are modelled by ℚ.  The dict
_pending_trades, keyed by symbol, is modelled as a function from symbol
to an optional entry. -/

structure PendingTrade where
  id : String
  symbol : String
  bias : String
  entry_min : ℚ
  entry_max : ℚ
  stop_loss : ℚ
  tp1 : ℚ
  tp2 : ℚ
  sl_pips : ℚ
  confidence : String
  queued_at : ℚ
  deriving DecidableEq

/-- Trade expiry window (main.py:64): all EAs have this long to pick up
a trade. -/
def PENDING_TRADE_TTL_SECONDS : ℚ := 60

/-- queue_pending_trade (main.py:70-74): stamp queued_at with the
current time and store the trade under its symbol, replacing any
previous entry. -/
def queue_pending_trade (q : String → Option PendingTrade)
    (trade : PendingTrade) (now : ℚ) : String → Option PendingTrade :=
  fun s => if s = trade.symbol then some { trade with queued_at := now }
    else q s

/-- get_pending_trade (main.py:77-86): return the current pending trade
for the symbol, auto-expiring (popping) entries older than the TTL.  The
result pairs the returned value with the dict after the call. -/
def get_pending_trade (q : String → Option PendingTrade) (symbol : String)
    (now : ℚ) : Option PendingTrade × (String → Option PendingTrade) :=
  match q symbol with
  | none => (none, q)
  | some trade =>
      if trade.queued_at > 0 then
        if now - trade.queued_at > PENDING_TRADE_TTL_SECONDS then
          (none, fun s => if s = symbol then none else q s)
        else (some trade, q)
      else (some trade, q)

/-! ## AnalysisEngine tiers over the LLM client (src/server/analyzer.py)

The provider call itself is external: each tier takes the outcome of its
call as an oracle value.  A parsed outcome carries the fields the code
extracts from the JSON dict with dict.get defaults applied; parseFailed
covers _parse_response returning None (or a falsy dict); apiError covers
an exception raised by the provider call, carrying the exception
text. -/

structure ConfirmResult where
  confirmed : Bool
  reasoning : String
  deriving DecidableEq

inductive HaikuOutcome where
  | parsed (confirmed : Bool) (reasoning : String)
  | parseFailed
  | apiError (message : String)
  deriving DecidableEq

/-- Tier-3 entry confirmation confirm_entry (analyzer.py:957-1062):
with no API key configured it returns confirmed = true (auto-confirm);
a parsed response is passed through; a parse failure defaults to NO; an
exception defaults to NO with the exception recorded after the prefix
"Error: ". -/
def confirm_entry (api_key : String) (outcome : HaikuOutcome) :
    ConfirmResult :=
  if api_key = "" then
    { confirmed := true, reasoning := "API key missing, auto-confirming" }
  else
    match outcome with
    | .parsed c r => { confirmed := c, reasoning := r }
    | .parseFailed =>
        { confirmed := false, reasoning := "Parse failed — skipping for safety" }
    | .apiError e => { confirmed := false, reasoning := "Error: " ++ e }

structure ScreenResult where
  has_setup : Bool
  reasoning : String
  deriving DecidableEq

inductive ScreenOutcome where
  | parsed (result : ScreenResult)
  | parseFailed
  | apiError (message : String)
  deriving DecidableEq

/-- Tier-1 screener screen_charts (analyzer.py:700-767), restricted to
the has_setup / reasoning fields the pipeline consumes: with no API key
it reports a setup present; a parsed response is returned as-is; a parse
failure or a provider exception fails open with has_setup = true and the
error recorded in reasoning. -/
def screen_charts (api_key : String) (outcome : ScreenOutcome) :
    ScreenResult :=
  if api_key = "" then
    { has_setup := true, reasoning := "API key missing, skipping screen" }
  else
    match outcome with
    | .parsed r => r
    | .parseFailed => { has_setup := true, reasoning := "Parse failed, escalating" }
    | .apiError e => { has_setup := true, reasoning := "Screen error: " ++ e }

/-! ## WatchTrade state machine (src/server/models.py:114-131,
src/server/main.py:537-682) -/

/-- WatchTrade as declared in models.py:114-131.  (main.py additionally
passes a tp1_close_pct keyword when building one, which pydantic v2
silently drops because the model declares no such field; it is
accordingly absent here.) -/
structure WatchTrade where
  id : String
  symbol : String
  bias : String
  entry_min : ℚ
  entry_max : ℚ
  stop_loss : ℚ
  tp1 : ℚ
  tp2 : ℚ
  sl_pips : ℚ
  confidence : String
  confluence : List String
  checklist_score : String
  created_at : ℚ
  max_confirmations : Int
  confirmations_used : Int
  status : String
  deriving DecidableEq

/-- Fields of models.TradeSetup (models.py:57-83) read by the embedded
functions (auto-queue, risk gate, watch creation). -/
structure TradeSetup where
  bias : String
  entry_min : ℚ
  entry_max : ℚ
  stop_loss : ℚ
  sl_pips : ℚ
  tp1 : ℚ
  tp1_pips : ℚ
  tp2 : ℚ
  tp2_pips : ℚ
  confluence : List String
  confidence : String
  checklist_score : String
  deriving DecidableEq

/-- Transient-error test of confirm_entry_endpoint (main.py:591): errors
from the analyzer exception handler start with "Error:", parse failures
with "Parse failed". -/
def is_transient_error (reasoning : String) : Bool :=
  pyStartsWith reasoning "Error:" || pyStartsWith reasoning "Parse failed"

/-- State transition of the watch performed by one /confirm_entry
request (main.py:549-682), as a function of the watch found for the
symbol, the submitted trade_id, and the Tier-3 result: id mismatch and
non-watching status leave the watch untouched; an exhausted watch is
marked rejected; otherwise a non-transient result consumes one attempt,
a confirmed verdict moves the watch to confirmed, and a false verdict
with no attempts remaining moves it to rejected.  (The notifications,
pending-trade publication and persistence deletes the endpoint also
performs do not touch the watch fields and are modelled elsewhere.) -/
def confirm_entry_step (watch : WatchTrade) (trade_id : String)
    (result : ConfirmResult) : WatchTrade :=
  if watch.id ≠ trade_id then watch
  else if watch.status ≠ "watching" then watch
  else if watch.max_confirmations ≤ watch.confirmations_used then
    { watch with status := "rejected" }
  else
    let w :=
      if is_transient_error result.reasoning then watch
      else { watch with confirmations_used := watch.confirmations_used + 1 }
    let remaining := w.max_confirmations - w.confirmations_used
    if result.confirmed then { w with status := "confirmed" }
    else if remaining ≤ 0 then { w with status := "rejected" }
    else w

/-- A sequence of /confirm_entry requests applied to one watch, each
request carrying the submitted trade_id and the Tier-3 result. -/
def confirm_entry_run : WatchTrade → List (String × ConfirmResult) → WatchTrade
  | w, [] => w
  | w, (tid, r) :: rest => confirm_entry_run (confirm_entry_step w tid r) rest

/-- Checklist-score parser _parse_checklist_score (main.py:170-175):
the integer before the first "/" when one is present and parseable,
otherwise 0. -/
def parse_checklist_score (score : String) : Int :=
  if pyContainsChar score '/' then
    match pyToInt (String.mk (score.data.takeWhile (fun c => c ≠ '/'))) with
    | some n => n
    | none => 0
  else 0

/-- Auto-queue threshold (main.py:67). -/
def AUTO_QUEUE_MIN_CHECKLIST : Int := 7

/-- Watch construction _create_watch_trade (main.py:178-206); new_id
stands for the generated uuid4().hex[:8] and now for time.time().  The
tp1_close_pct tier computed on lines 181-189 is dropped by pydantic (see
WatchTrade) and hence not modelled. -/
def create_watch_trade (symbol : String) (setup : TradeSetup)
    (new_id : String) (now : ℚ) : WatchTrade :=
  { id := new_id, symbol := symbol, bias := setup.bias,
    entry_min := setup.entry_min, entry_max := setup.entry_max,
    stop_loss := setup.stop_loss, tp1 := setup.tp1, tp2 := setup.tp2,
    sl_pips := setup.sl_pips, confidence := setup.confidence,
    confluence := setup.confluence.take 3,
    checklist_score := setup.checklist_score, created_at := now,
    max_confirmations := 3, confirmations_used := 0, status := "watching" }

/-! ## Currency-correlation check (src/server/trade_tracker.py:626-696) -/

/-- An open trades row restricted to the columns the correlation check
reads. -/
structure OpenTrade where
  symbol : String
  bias : String
  deriving DecidableEq

/-- One directional currency exposure.  The source encodes it as the
string "SYM:long_GBP" under the currency key and immediately decodes it
in check_correlation_conflict by splitting on ":" (giving the symbol)
and "_" (giving the direction); we model the entry as the pair that
round-trips through that encoding. -/
structure ExposureEntry where
  symbol : String
  dir : String
  deriving DecidableEq

/-- Exposures contributed by one open trade
(trade_tracker.py:638-649): long SYM = long base + short quote, anything
else = short base + long quote, with base = symbol[:3] and
quote = symbol[3:]. -/
def trade_exposures (t : OpenTrade) : List (String × ExposureEntry) :=
  let base := pyTake t.symbol 3
  let quote := pyDrop t.symbol 3
  if t.bias = "long" then
    [(base, { symbol := t.symbol, dir := "long" }),
     (quote, { symbol := t.symbol, dir := "short" })]
  else
    [(base, { symbol := t.symbol, dir := "short" }),
     (quote, { symbol := t.symbol, dir := "long" })]

/-- get_open_currency_exposure (trade_tracker.py:626-651) read at one
currency key: the entries appended for that currency across the open
trades, in order (the defaultdict-style setdefault/append of the
source). -/
def get_open_currency_exposure (open_trades : List OpenTrade)
    (currency : String) : List ExposureEntry :=
  (((open_trades.map trade_exposures).flatten).filter
    (fun p => p.1 = currency)).map Prod.snd

/-- check_correlation_conflict (trade_tracker.py:654-696): a warning
when an open trade on a different pair already carries the candidate's
direction on the candidate's base or quote currency, none when safe. -/
def check_correlation_conflict (open_trades : List OpenTrade)
    (symbol bias : String) : Option String :=
  let base := pyTake symbol 3
  let quote := pyDrop symbol 3
  let new_base_dir := if bias = "long" then "long" else "short"
  let new_quote_dir := if bias = "long" then "short" else "long"
  let base_conflicts :=
    (get_open_currency_exposure open_trades base).filterMap fun e =>
      if e.symbol = symbol then none
      else if e.dir = new_base_dir then
        some (base ++ " already " ++ new_base_dir ++ " via " ++ e.symbol)
      else none
  let quote_conflicts :=
    (get_open_currency_exposure open_trades quote).filterMap fun e =>
      if e.symbol = symbol then none
      else if e.dir = new_quote_dir then
        some (quote ++ " already " ++ new_quote_dir ++ " via " ++ e.symbol)
      else none
  let conflicts := base_conflicts ++ quote_conflicts
  if conflicts.isEmpty then none
  else some ("Correlation risk: " ++ String.intercalate "; " conflicts)

/-- Stated from the specification, for comparison with the code: an open
trade implies the same directional exposure as the candidate
(cand_symbol, cand_bias) to the candidate's base or quote currency via a
different symbol. -/
def implies_same_direction_exposure (cand_symbol cand_bias : String)
    (t : OpenTrade) : Prop :=
  t.symbol ≠ cand_symbol ∧
  ∃ p ∈ trade_exposures t,
    ∃ q ∈ trade_exposures { symbol := cand_symbol, bias := cand_bias },
      p.1 = q.1 ∧ p.2.dir = q.2.dir

/-! ## Risk Gate check_risk_filters (src/server/telegram_bot.py:60-96) -/

/-- Result of the external news-calendar query check_news_restriction
(news_filter module), as consumed by the gate. -/
structure NewsCheck where
  blocked : Bool
  event_title : String
  deriving DecidableEq

/-- Which rule denied, carrying the data the source formats into the
block-reason string (the numeric drawdown percent appears only inside
that formatted string and is omitted). -/
inductive RiskReason where
  | allowed
  | news (event_title : String)
  | drawdown
  | maxTrades (n : Nat)
  | correlation (warning : String)
  deriving DecidableEq

/-- Default from config.py:14. -/
def MAX_DAILY_DRAWDOWN_PCT : ℚ := 3

/-- Default from config.py:15. -/
def MAX_OPEN_TRADES : Nat := 2

/-- Daily-drawdown test of the gate (telegram_bot.py:72-76): only
performed when market data for the symbol exists with a positive account
balance; compares abs(min(0, daily_pnl)) / balance * 100 against the
limit. -/
def drawdown_exceeded (daily_pnl : ℚ) (account_balance : Option ℚ) : Bool :=
  match account_balance with
  | some b =>
      if b > 0 then decide (MAX_DAILY_DRAWDOWN_PCT ≤ |min 0 daily_pnl| / b * 100)
      else false
  | none => false

/-- check_risk_filters (telegram_bot.py:60-96): news window, daily
drawdown, max open trades, currency correlation, in that order with the
first denial winning; (true, allowed) when all pass.  daily_pnl is the
value get_daily_pnl reads from the store, account_balance the balance of
the last market data for the symbol (none when absent), open_trades the
store's open rows (read by both the count check and the correlation
check). -/
def check_risk_filters (symbol : String) (setup : TradeSetup)
    (news : NewsCheck) (daily_pnl : ℚ) (account_balance : Option ℚ)
    (open_trades : List OpenTrade) : Bool × RiskReason :=
  if news.blocked then (false, RiskReason.news news.event_title)
  else if drawdown_exceeded daily_pnl account_balance then
    (false, RiskReason.drawdown)
  else if MAX_OPEN_TRADES ≤ open_trades.length then
    (false, RiskReason.maxTrades open_trades.length)
  else
    match check_correlation_conflict open_trades symbol setup.bias with
    | some w => (false, RiskReason.correlation w)
    | none => (true, RiskReason.allowed)

/-- Auto-queue selection of _run_analysis (main.py:140-161): the
(index, setup) pairs whose parsed checklist score reaches the threshold
and which the risk gate allows; exactly these become watch trades. -/
def auto_queue_selected (setups : List TradeSetup)
    (gate : TradeSetup → Bool) : List (Nat × TradeSetup) :=
  setups.enum.filter fun p =>
    decide (AUTO_QUEUE_MIN_CHECKLIST ≤ parse_checklist_score p.2.checklist_score)
      && gate p.2

/-! ## API-key middleware verify_api_key (src/server/main.py:365-381) -/

inductive AuthDecision where
  | forward
  | reject401
  deriving DecidableEq

/-- verify_api_key (main.py:365-381): forward health, the Telegram
webhook and public/* paths unauthenticated; forward everything when no
key is configured; otherwise reject with 401 unless the X-API-Key header
(defaulted to "" when absent) equals the configured key.  reject401
carries the fact that the middleware returned the 401 JSON response
without invoking call_next, so no handler runs. -/
def verify_api_key (config_api_key : String) (path : String)
    (header_api_key : Option String) : AuthDecision :=
  if path = "/health" ∨ path = "/webhook/telegram"
      ∨ pyStartsWith path "/public/" then AuthDecision.forward
  else if config_api_key = "" then AuthDecision.forward
  else if header_api_key.getD "" ≠ config_api_key then AuthDecision.reject401
  else AuthDecision.forward

/-! ## Persisted watches (src/server/trade_tracker.py:180-214,
src/server/main.py:140-161 and 264-275) -/

/-- Row of the watch_trades_persist table (trade_tracker.py:140-146). -/
structure WatchRow where
  id : String
  symbol : String
  watch_json : String
  status : String
  created_at : String
  deriving DecidableEq

/-- persist_watch (trade_tracker.py:180-188): INSERT OR REPLACE keyed on
the primary key id. -/
def persist_watch (db : List WatchRow) (watch_id symbol watch_json
    status now : String) : List WatchRow :=
  db.filter (fun r => r.id ≠ watch_id) ++
    [{ id := watch_id, symbol := symbol, watch_json := watch_json,
       status := status, created_at := now }]

/-- load_active_watches (trade_tracker.py:191-197): the watch_json of
every row with status watching. -/
def load_active_watches (db : List WatchRow) : List String :=
  (db.filter (fun r => r.status = "watching")).map (fun r => r.watch_json)

/-- delete_watch (trade_tracker.py:200-204). -/
def delete_watch (db : List WatchRow) (watch_id : String) : List WatchRow :=
  db.filter (fun r => r.id ≠ watch_id)

/-- Registration step of _run_analysis (main.py:148-152) when a setup is
auto-queued: the in-memory dict _watch_trades maps the symbol to the new
watch, and persist_watch upserts the new row with status watching —
without deleting or updating any previous row for the symbol. -/
def auto_queue_register (mem : String → Option WatchTrade)
    (db : List WatchRow) (watch : WatchTrade) (watch_json now : String) :
    (String → Option WatchTrade) × List WatchRow :=
  (fun s => if s = watch.symbol then some watch else mem s,
   persist_watch db watch.id watch.symbol watch_json "watching" now)

/-! ## Concrete sample data used by witnesses -/

/-- Sample pending trade queued at time 5. -/
def sample_pending : PendingTrade :=
  { id := "ab12cd34", symbol := "GBPJPY", bias := "long",
    entry_min := 189, entry_max := 190, stop_loss := 188,
    tp1 := 191, tp2 := 192, sl_pips := 30, confidence := "high",
    queued_at := 5 }

/-- Queue holding only the sample pending trade. -/
def sample_queue : String → Option PendingTrade :=
  queue_pending_trade (fun _ => none) sample_pending 5

/-- Sample setup scoring 10/12 on the checklist. -/
def sample_setup : TradeSetup :=
  { bias := "long", entry_min := 189, entry_max := 190, stop_loss := 188,
    sl_pips := 30, tp1 := 191, tp1_pips := 20, tp2 := 192, tp2_pips := 40,
    confluence := ["OB retest", "FVG fill", "PDL sweep", "OTE"],
    confidence := "high", checklist_score := "10/12" }

/-- Sample setup scoring 3/12 on the checklist. -/
def sample_low_setup : TradeSetup :=
  { sample_setup with checklist_score := "3/12" }

/-- Watch created from the sample setup. -/
def sample_watch : WatchTrade :=
  create_watch_trade "GBPJPY" sample_setup "ab12cd34" 100

/-- A real negative Tier-3 verdict. -/
def reject_result : ConfirmResult :=
  { confirmed := false, reasoning := "no reaction at the zone" }

/-- A transient Tier-3 failure. -/
def transient_result : ConfirmResult :=
  { confirmed := false, reasoning := "Error: overloaded" }

/-- Three rejected confirmation attempts for the sample watch. -/
def sample_reqs3 : List (String × ConfirmResult) :=
  [("ab12cd34", reject_result), ("ab12cd34", reject_result),
   ("ab12cd34", reject_result)]

/-- Two rejected confirmation attempts for the sample watch. -/
def sample_reqs2 : List (String × ConfirmResult) :=
  [("ab12cd34", reject_result), ("ab12cd34", reject_result)]

/-- Quiet news calendar. -/
def sample_news_ok : NewsCheck := { blocked := false, event_title := "" }

/-- Blocking news calendar. -/
def sample_news_blocked : NewsCheck :=
  { blocked := true, event_title := "NFP" }

/-- An open long GBPJPY position. -/
def sample_open_gbpjpy : OpenTrade := { symbol := "GBPJPY", bias := "long" }

/-- A persisted watching row for GBPJPY predating the sample watch. -/
def sample_old_row : WatchRow :=
  { id := "old00001", symbol := "GBPJPY", watch_json := "json-old",
    status := "watching", created_at := "T0" }

/-! ## Theorems -/

/-! Small characterisations of the phases, used to settle claim C2. -/

theorem update_hit_flags_sl_hit (t : TradeRecord) (r : String) (p : ℚ) :
    (update_hit_flags t r p).sl_hit = if r = "sl" then true else t.sl_hit := by
  unfold update_hit_flags
  split
  · next h => subst h; simp
  · split
    · next h => subst h; simp
    · split <;> simp_all

theorem update_hit_flags_tp1_hit (t : TradeRecord) (r : String) (p : ℚ) :
    (update_hit_flags t r p).tp1_hit = if r = "tp1" then true else t.tp1_hit := by
  unfold update_hit_flags
  split
  · next h => subst h; simp
  · split
    · next h => subst h; simp_all
    · split <;> simp_all

theorem update_hit_flags_tp2_hit (t : TradeRecord) (r : String) (p : ℚ) :
    (update_hit_flags t r p).tp2_hit = if r = "tp2" then true else t.tp2_hit := by
  unfold update_hit_flags
  split
  · next h => subst h; simp
  · split
    · next h => subst h; simp
    · split <;> simp_all

theorem resolve_record_status (trade t2 : TradeRecord) (r now : String) :
    (resolve_record trade t2 r now).status = "closed" := by
  unfold resolve_record; rfl

theorem resolve_record_closed_at (trade t2 : TradeRecord) (r now : String) :
    (resolve_record trade t2 r now).closed_at = some now := by
  unfold resolve_record; rfl

theorem resolve_record_loss (trade t2 : TradeRecord) (r now : String)
    (hsl : t2.sl_hit = true) (h1 : t2.tp1_hit = false)
    (h2 : t2.tp2_hit = false) :
    (resolve_record trade t2 r now).pnl_pips = -trade.sl_pips ∧
      (resolve_record trade t2 r now).outcome = "loss" := by
  unfold resolve_record
  simp [hsl, h1, h2]

theorem resolve_record_full_win (trade t2 : TradeRecord) (r now : String)
    (h1 : t2.tp1_hit = true) (h2 : t2.tp2_hit = true) :
    (resolve_record trade t2 r now).pnl_pips =
        trade.tp1_pips + trade.tp2_pips ∧
      (resolve_record trade t2 r now).outcome = "full_win" := by
  unfold resolve_record
  simp [h1, h2]

theorem resolve_record_partial_win (trade t2 : TradeRecord) (r now : String)
    (h1 : t2.tp1_hit = true) (hsl : t2.sl_hit = true)
    (h2 : t2.tp2_hit = false) :
    (resolve_record trade t2 r now).pnl_pips = trade.tp1_pips ∧
      (resolve_record trade t2 r now).outcome = "partial_win" := by
  unfold resolve_record
  simp [h1, h2, hsl]

theorem resolve_record_cancelled (trade t2 : TradeRecord) (now : String)
    (hsl : t2.sl_hit = false) (hnot : ¬(t2.tp1_hit = true ∧ t2.tp2_hit = true)) :
    (resolve_record trade t2 "cancelled" now).pnl_pips = 0 ∧
      (resolve_record trade t2 "cancelled" now).outcome = "cancelled" := by
  unfold resolve_record
  cases h1 : t2.tp1_hit <;> cases h2 : t2.tp2_hit <;> simp_all

theorem resolve_record_sl_hit (trade t2 : TradeRecord) (r now : String) :
    (resolve_record trade t2 r now).sl_hit = t2.sl_hit := by
  unfold resolve_record
  split
  · rfl
  · split
    · rfl
    · split
      · rfl
      · split <;> rfl

theorem resolve_record_tp1_hit (trade t2 : TradeRecord) (r now : String) :
    (resolve_record trade t2 r now).tp1_hit = t2.tp1_hit := by
  unfold resolve_record
  split
  · rfl
  · split
    · rfl
    · split
      · rfl
      · split <;> rfl

theorem resolve_record_tp2_hit (trade t2 : TradeRecord) (r now : String) :
    (resolve_record trade t2 r now).tp2_hit = t2.tp2_hit := by
  unfold resolve_record
  split
  · rfl
  · split
    · rfl
    · split
      · rfl
      · split <;> rfl

theorem log_trade_closed_flags (trade : TradeRecord) (ticket : Int)
    (close_price : ℚ) (close_reason : String) (profit : ℚ) (now : String) :
    (log_trade_closed trade ticket close_price close_reason profit now).sl_hit
        = (if close_reason = "sl" then true else trade.sl_hit) ∧
      (log_trade_closed trade ticket close_price close_reason profit
          now).tp1_hit
        = (if close_reason = "tp1" then true else trade.tp1_hit) ∧
      (log_trade_closed trade ticket close_price close_reason profit
          now).tp2_hit
        = (if close_reason = "tp2" then true else trade.tp2_hit) := by
  simp only [log_trade_closed]
  refine ⟨?_, ?_, ?_⟩ <;> split <;>
    simp only [resolve_record_sl_hit, resolve_record_tp1_hit,
      resolve_record_tp2_hit, update_hit_flags_sl_hit,
      update_hit_flags_tp1_hit, update_hit_flags_tp2_hit]

theorem log_trade_closed_resolved_eq (trade : TradeRecord) (ticket : Int)
    (close_price : ℚ) (close_reason : String) (profit : ℚ) (now : String)
    (h : (((update_hit_flags
          { trade with pnl_money := trade.pnl_money + profit }
          close_reason close_price).sl_hit
        || ((update_hit_flags
              { trade with pnl_money := trade.pnl_money + profit }
              close_reason close_price).tp1_hit
            && (update_hit_flags
              { trade with pnl_money := trade.pnl_money + profit }
              close_reason close_price).tp2_hit))
        || (close_reason == "cancelled")) = true) :
    log_trade_closed trade ticket close_price close_reason profit now
      = resolve_record trade
          (update_hit_flags
            { trade with pnl_money := trade.pnl_money + profit }
            close_reason close_price)
          close_reason now := by
  simp only [log_trade_closed]
  rw [if_pos h]

/-- Claim C2: a trade record resolved by log_trade_closed gets its pip
P&L and outcome from the hit flags — SL alone gives -sl_pips and loss;
TP1 and TP2 give tp1_pips + tp2_pips and full_win; TP1 with SL on the
runner (no TP2) gives tp1_pips and partial_win; a cancellation of a
not-yet-resolved record gives 0 and cancelled — and in each case the
status becomes closed with closed_at set.  The flag hypotheses of the
first three conjuncts are read off the returned record (the flags as
they stand at resolution time); the cancelled conjunct constrains the
incoming record, because a cancelled reason sets no flag, so a record
that becomes resolved by the cancellation was not resolved before. -/
theorem log_trade_closed_resolution_arithmetic (trade : TradeRecord)
    (ticket : Int) (close_price : ℚ) (close_reason : String) (profit : ℚ)
    (now : String) :
    ((log_trade_closed trade ticket close_price close_reason profit
          now).sl_hit = true →
      (log_trade_closed trade ticket close_price close_reason profit
          now).tp1_hit = false →
      (log_trade_closed trade ticket close_price close_reason profit
          now).tp2_hit = false →
      (log_trade_closed trade ticket close_price close_reason profit
          now).pnl_pips = -trade.sl_pips ∧
      (log_trade_closed trade ticket close_price close_reason profit
          now).outcome = "loss" ∧
      (log_trade_closed trade ticket close_price close_reason profit
          now).status = "closed" ∧
      (log_trade_closed trade ticket close_price close_reason profit
          now).closed_at = some now) ∧
    ((log_trade_closed trade ticket close_price close_reason profit
          now).tp1_hit = true →
      (log_trade_closed trade ticket close_price close_reason profit
          now).tp2_hit = true →
      (log_trade_closed trade ticket close_price close_reason profit
          now).pnl_pips = trade.tp1_pips + trade.tp2_pips ∧
      (log_trade_closed trade ticket close_price close_reason profit
          now).outcome = "full_win" ∧
      (log_trade_closed trade ticket close_price close_reason profit
          now).status = "closed" ∧
      (log_trade_closed trade ticket close_price close_reason profit
          now).closed_at = some now) ∧
    ((log_trade_closed trade ticket close_price close_reason profit
          now).tp1_hit = true →
      (log_trade_closed trade ticket close_price close_reason profit
          now).sl_hit = true →
      (log_trade_closed trade ticket close_price close_reason profit
          now).tp2_hit = false →
      (log_trade_closed trade ticket close_price close_reason profit
          now).pnl_pips = trade.tp1_pips ∧
      (log_trade_closed trade ticket close_price close_reason profit
          now).outcome = "partial_win" ∧
      (log_trade_closed trade ticket close_price close_reason profit
          now).status = "closed" ∧
      (log_trade_closed trade ticket close_price close_reason profit
          now).closed_at = some now) ∧
    (close_reason = "cancelled" → trade.sl_hit = false →
      ¬(trade.tp1_hit = true ∧ trade.tp2_hit = true) →
      (log_trade_closed trade ticket close_price close_reason profit
          now).pnl_pips = 0 ∧
      (log_trade_closed trade ticket close_price close_reason profit
          now).outcome = "cancelled" ∧
      (log_trade_closed trade ticket close_price close_reason profit
          now).status = "closed" ∧
      (log_trade_closed trade ticket close_price close_reason profit
          now).closed_at = some now) := by
  obtain ⟨hslE, htp1E, htp2E⟩ :=
    log_trade_closed_flags trade ticket close_price close_reason profit now
  have ht2sl : (update_hit_flags
        { trade with pnl_money := trade.pnl_money + profit }
        close_reason close_price).sl_hit
      = (log_trade_closed trade ticket close_price close_reason profit
          now).sl_hit := by
    rw [hslE, update_hit_flags_sl_hit]
  have ht2tp1 : (update_hit_flags
        { trade with pnl_money := trade.pnl_money + profit }
        close_reason close_price).tp1_hit
      = (log_trade_closed trade ticket close_price close_reason profit
          now).tp1_hit := by
    rw [htp1E, update_hit_flags_tp1_hit]
  have ht2tp2 : (update_hit_flags
        { trade with pnl_money := trade.pnl_money + profit }
        close_reason close_price).tp2_hit
      = (log_trade_closed trade ticket close_price close_reason profit
          now).tp2_hit := by
    rw [htp2E, update_hit_flags_tp2_hit]
  refine ⟨?_, ?_, ?_, ?_⟩
  · intro hsl htp1 htp2
    have hr := log_trade_closed_resolved_eq trade ticket close_price
      close_reason profit now (by rw [ht2sl, hsl]; simp)
    rw [hr]
    obtain ⟨hp, ho⟩ := resolve_record_loss trade _ close_reason now
      (ht2sl.trans hsl) (ht2tp1.trans htp1) (ht2tp2.trans htp2)
    exact ⟨hp, ho, resolve_record_status .., resolve_record_closed_at ..⟩
  · intro htp1 htp2
    have hr := log_trade_closed_resolved_eq trade ticket close_price
      close_reason profit now
      (by rw [ht2tp1, htp1, ht2tp2, htp2]; simp)
    rw [hr]
    obtain ⟨hp, ho⟩ := resolve_record_full_win trade _ close_reason now
      (ht2tp1.trans htp1) (ht2tp2.trans htp2)
    exact ⟨hp, ho, resolve_record_status .., resolve_record_closed_at ..⟩
  · intro htp1 hsl htp2
    have hr := log_trade_closed_resolved_eq trade ticket close_price
      close_reason profit now (by rw [ht2sl, hsl]; simp)
    rw [hr]
    obtain ⟨hp, ho⟩ := resolve_record_partial_win trade _ close_reason now
      (ht2tp1.trans htp1) (ht2sl.trans hsl) (ht2tp2.trans htp2)
    exact ⟨hp, ho, resolve_record_status .., resolve_record_closed_at ..⟩
  · intro hc hsl0 hnot
    subst hc
    have hr := log_trade_closed_resolved_eq trade ticket close_price
      "cancelled" profit now (by simp)
    rw [hr]
    have hflagsl : (update_hit_flags
          { trade with pnl_money := trade.pnl_money + profit }
          "cancelled" close_price).sl_hit = false := by
      rw [update_hit_flags_sl_hit]; simpa using hsl0
    have hflagnot : ¬((update_hit_flags
          { trade with pnl_money := trade.pnl_money + profit }
          "cancelled" close_price).tp1_hit = true ∧
        (update_hit_flags
          { trade with pnl_money := trade.pnl_money + profit }
          "cancelled" close_price).tp2_hit = true) := by
      rw [update_hit_flags_tp1_hit, update_hit_flags_tp2_hit]
      simpa using hnot
    obtain ⟨hp, ho⟩ := resolve_record_cancelled trade _ now hflagsl hflagnot
    exact ⟨hp, ho, resolve_record_status .., resolve_record_closed_at ..⟩

/-- Witness for C2: each of the four resolution cases evaluated on a
concrete record (all flags initially clear, sl_pips = 30, tp1_pips = 20,
tp2_pips = 40), exercising the theorem at each close reason. -/
theorem log_trade_closed_resolution_arithmetic_witness :
    (let base : TradeRecord :=
      { tp1_hit := false, tp2_hit := false, sl_hit := false,
        close_price_tp1 := 0, close_price_tp2 := 0, pnl_pips := 0,
        pnl_money := 0, outcome := "open", status := "executed",
        closed_at := none, actual_entry := 190, entry_min := 189,
        entry_max := 191, sl_pips := 30, tp1_pips := 20, tp2_pips := 40 }
     let rLoss := log_trade_closed base 1 189 "sl" (-50) "T1"
     let afterTp1 := log_trade_closed base 2 191 "tp1" 30 "T2"
     let rPartial := log_trade_closed afterTp1 3 190 "sl" 0 "T3"
     let rFull := log_trade_closed afterTp1 4 195 "tp2" 60 "T4"
     let rCancel := log_trade_closed base 5 0 "cancelled" 0 "T5"
     (rLoss.pnl_pips = -base.sl_pips ∧ rLoss.outcome = "loss" ∧
        rLoss.status = "closed" ∧ rLoss.closed_at = some "T1") ∧
     (rFull.pnl_pips = afterTp1.tp1_pips + afterTp1.tp2_pips ∧
        rFull.outcome = "full_win" ∧ rFull.status = "closed" ∧
        rFull.closed_at = some "T4") ∧
     (rPartial.pnl_pips = afterTp1.tp1_pips ∧
        rPartial.outcome = "partial_win" ∧ rPartial.status = "closed" ∧
        rPartial.closed_at = some "T3") ∧
     (rCancel.pnl_pips = 0 ∧ rCancel.outcome = "cancelled" ∧
        rCancel.status = "closed" ∧ rCancel.closed_at = some "T5")) := by
  refine ⟨?_, ?_, ?_, ?_⟩
  · exact (log_trade_closed_resolution_arithmetic _ 1 189 "sl" (-50) "T1").1
      (by decide) (by decide) (by decide)
  · exact (log_trade_closed_resolution_arithmetic _ 4 195 "tp2" 60 "T4").2.1
      (by decide) (by decide)
  · exact (log_trade_closed_resolution_arithmetic _ 3 190 "sl" 0 "T3").2.2.1
      (by decide) (by decide) (by decide)
  · exact (log_trade_closed_resolution_arithmetic _ 5 0 "cancelled" 0
      "T5").2.2.2 (by decide) (by decide) (by decide)

/-- Claim C4: a queued pending trade is returned, with the queue left
unchanged (so any number of callers inside the window see the same
entry), at every time within TTL seconds of queued_at, and any call
after the window evicts the entry and returns absent.  queued_at is
positive for every entry placed by queue_pending_trade, which stamps it
with time.time(). -/
theorem pending_trade_ttl_window (q : String → Option PendingTrade)
    (p : PendingTrade) (now : ℚ) (hq : q p.symbol = some p)
    (hpos : 0 < p.queued_at) :
    (now - p.queued_at ≤ PENDING_TRADE_TTL_SECONDS →
      get_pending_trade q p.symbol now = (some p, q)) ∧
    (PENDING_TRADE_TTL_SECONDS < now - p.queued_at →
      (get_pending_trade q p.symbol now).1 = none ∧
      (get_pending_trade q p.symbol now).2 p.symbol = none) ∧
    (now - p.queued_at ≤ PENDING_TRADE_TTL_SECONDS →
      ∀ now2 : ℚ, now2 - p.queued_at ≤ PENDING_TRADE_TTL_SECONDS →
        (get_pending_trade (get_pending_trade q p.symbol now).2 p.symbol
          now2).1 = some p) := by
  have hbase : ∀ t : ℚ, t - p.queued_at ≤ PENDING_TRADE_TTL_SECONDS →
      get_pending_trade q p.symbol t = (some p, q) := by
    intro t ht
    unfold get_pending_trade
    rw [hq]
    simp only [if_pos hpos]
    rw [if_neg (not_lt.mpr ht)]
  refine ⟨hbase now, ?_, ?_⟩
  · intro hlate
    unfold get_pending_trade
    rw [hq]
    simp only [if_pos hpos]
    rw [if_pos hlate]
    exact ⟨rfl, by simp⟩
  · intro hin now2 hin2
    rw [hbase now hin]
    exact congrArg Prod.fst (hbase now2 hin2)

/-- Witness for C4: a trade queued at time 5 is served at times 65 and
20 (and twice in a row), and evicted at time 66. -/
theorem pending_trade_ttl_window_witness :
    (get_pending_trade sample_queue "GBPJPY" 65
        = (some sample_pending, sample_queue)) ∧
    ((get_pending_trade sample_queue "GBPJPY" 66).1 = none ∧
      (get_pending_trade sample_queue "GBPJPY" 66).2 "GBPJPY" = none) ∧
    (get_pending_trade (get_pending_trade sample_queue "GBPJPY" 20).2
        "GBPJPY" 65).1 = some sample_pending := by
  have hq : sample_queue sample_pending.symbol = some sample_pending := by
    decide
  have hsym : sample_pending.symbol = "GBPJPY" := rfl
  refine ⟨?_, ?_, ?_⟩
  · have h := (pending_trade_ttl_window sample_queue sample_pending 65 hq
      (by norm_num [sample_pending, PENDING_TRADE_TTL_SECONDS])).1 (by norm_num [sample_pending, PENDING_TRADE_TTL_SECONDS])
    rwa [hsym] at h
  · have h := (pending_trade_ttl_window sample_queue sample_pending 66 hq
      (by norm_num [sample_pending, PENDING_TRADE_TTL_SECONDS])).2.1 (by norm_num [sample_pending, PENDING_TRADE_TTL_SECONDS])
    rwa [hsym] at h
  · have h := (pending_trade_ttl_window sample_queue sample_pending 20 hq
      (by norm_num [sample_pending, PENDING_TRADE_TTL_SECONDS])).2.2 (by norm_num [sample_pending, PENDING_TRADE_TTL_SECONDS]) 65
      (by norm_num [sample_pending, PENDING_TRADE_TTL_SECONDS])
    rwa [hsym] at h

/-- Claim C1 (counterexample): with no API key configured, confirm_entry
does NOT return confirmed = false for every input — on a parse-failure
input it returns confirmed = true (analyzer.py:972-973 auto-confirms
when the key is absent). -/
theorem confirm_entry_no_key_denies_cx :
    ¬ (∀ outcome : HaikuOutcome, (confirm_entry "" outcome).confirmed = false) :=
  fun h => absurd (h HaikuOutcome.parseFailed) (by decide)

/-- Claim C1 (amended): if no external model is configured (the
Anthropic API key is absent), the Tier-3 entry confirmer ALLOWS by
default on the M1 path: for every input it returns confirmed = true with
the reasoning "API key missing, auto-confirming". -/
theorem confirm_entry_no_key_auto_confirms (outcome : HaikuOutcome) :
    confirm_entry "" outcome
      = { confirmed := true,
          reasoning := "API key missing, auto-confirming" } := by
  simp [confirm_entry]

/-- Claim C6: with a model configured, a Tier-1 parse failure or a
transient provider error yields has_setup = true (analyze_charts reads
exactly this field to decide escalation to the full tier), with the
error reason recorded in the returned reasoning field. -/
theorem screener_fails_open (api_key message : String) (h : api_key ≠ "") :
    screen_charts api_key ScreenOutcome.parseFailed
        = { has_setup := true, reasoning := "Parse failed, escalating" } ∧
      screen_charts api_key (ScreenOutcome.apiError message)
        = { has_setup := true,
            reasoning := "Screen error: " ++ message } := by
  constructor <;> simp [screen_charts, h]

/-- Witness for C6: the screener fails open under the key "sk-test" for
a parse failure and for the provider error "HTTP 529". -/
theorem screener_fails_open_witness :
    ("sk-test" : String) ≠ "" ∧
    screen_charts "sk-test" ScreenOutcome.parseFailed
        = { has_setup := true, reasoning := "Parse failed, escalating" } ∧
    screen_charts "sk-test" (ScreenOutcome.apiError "HTTP 529")
        = { has_setup := true, reasoning := "Screen error: HTTP 529" } := by
  have h := screener_fails_open "sk-test" "HTTP 529" (by decide)
  exact ⟨by decide, h.1, h.2⟩

theorem confirm_entry_step_used_eq (w : WatchTrade) (tid : String)
    (r : ConfirmResult) :
    (confirm_entry_step w tid r).confirmations_used =
      if w.id = tid ∧ w.status = "watching" ∧
          w.confirmations_used < w.max_confirmations ∧
          is_transient_error r.reasoning = false
      then w.confirmations_used + 1 else w.confirmations_used := by
  simp only [confirm_entry_step]
  by_cases h1 : w.id = tid <;>
    by_cases h2 : w.status = "watching" <;>
      by_cases h3 : w.confirmations_used < w.max_confirmations <;>
        by_cases h4 : is_transient_error r.reasoning <;>
          simp only [h1, h2, h3, h4, ne_eq, not_true_eq_false,
            not_false_eq_true, if_true, if_false, ite_not, and_self,
            and_true, and_false, true_and, false_and, iff_true, iff_false,
            Bool.true_eq_false, Bool.false_eq_true, if_neg, ite_false,
            ite_true, eq_self_iff_true] <;>
          (repeat' split) <;>
          first | rfl | omega

theorem confirm_entry_step_max (w : WatchTrade) (tid : String)
    (r : ConfirmResult) :
    (confirm_entry_step w tid r).max_confirmations = w.max_confirmations := by
  simp only [confirm_entry_step]
  split
  · rfl
  · split
    · rfl
    · split
      · rfl
      · split <;> split <;> (try split) <;> rfl

theorem confirm_entry_run_invariant
    (reqs : List (String × ConfirmResult)) (w : WatchTrade)
    (h : w.confirmations_used ≤ w.max_confirmations) :
    (confirm_entry_run w reqs).confirmations_used
      ≤ (confirm_entry_run w reqs).max_confirmations := by
  induction reqs generalizing w with
  | nil => exact h
  | cons a rest ih =>
      obtain ⟨tid, r⟩ := a
      apply ih
      rw [confirm_entry_step_used_eq, confirm_entry_step_max]
      split
      · next hc => omega
      · exact h

theorem confirm_entry_step_reject (w : WatchTrade) (tid : String)
    (r : ConfirmResult) (h1 : w.status = "watching") (h2 : w.id = tid)
    (h3 : is_transient_error r.reasoning = false) (h4 : r.confirmed = false)
    (h5 : w.confirmations_used + 1 = w.max_confirmations) :
    confirm_entry_step w tid r
      = { w with confirmations_used := w.confirmations_used + 1,
                 status := "rejected" } := by
  simp only [confirm_entry_step, h1, h2, h3, h4]
  rw [if_neg (by simp), if_neg (by simp), if_neg (by omega)]
  simp only [Bool.false_eq_true, if_false]
  rw [if_pos (by omega : w.max_confirmations - (w.confirmations_used + 1) ≤ 0)]

/-- Claim C3: starting from any watch satisfying the bound (as every
watch built by _create_watch_trade does, with 0 used of 3), any sequence
of /confirm_entry requests keeps confirmations_used at or below
max_confirmations; and a real (non-transient) attempt that brings
confirmations_used up to max_confirmations without a confirmed = true
verdict moves the watch to rejected. -/
theorem watch_confirmations_bounded (w : WatchTrade)
    (reqs : List (String × ConfirmResult)) (tid : String) (r : ConfirmResult)
    (hinv : w.confirmations_used ≤ w.max_confirmations) :
    ((confirm_entry_run w reqs).confirmations_used
        ≤ (confirm_entry_run w reqs).max_confirmations) ∧
    (w.status = "watching" → w.id = tid →
      is_transient_error r.reasoning = false → r.confirmed = false →
      w.confirmations_used + 1 = w.max_confirmations →
      (confirm_entry_step w tid r).status = "rejected" ∧
      (confirm_entry_step w tid r).confirmations_used
        = (confirm_entry_step w tid r).max_confirmations) := by
  refine ⟨confirm_entry_run_invariant reqs w hinv, ?_⟩
  intro h1 h2 h3 h4 h5
  rw [confirm_entry_step_reject w tid r h1 h2 h3 h4 h5]
  exact ⟨rfl, h5⟩

/-- Witness for C3: the sample watch (0 of 3 attempts used) stays within
the bound across three rejected attempts, and the third real rejection —
applied to the state after two — moves it to rejected with 3 of 3
used. -/
theorem watch_confirmations_bounded_witness :
    sample_watch.confirmations_used ≤ sample_watch.max_confirmations ∧
    ((confirm_entry_run sample_watch sample_reqs3).confirmations_used
      ≤ (confirm_entry_run sample_watch sample_reqs3).max_confirmations) ∧
    ((confirm_entry_step (confirm_entry_run sample_watch sample_reqs2)
        "ab12cd34" reject_result).status = "rejected" ∧
      (confirm_entry_step (confirm_entry_run sample_watch sample_reqs2)
        "ab12cd34" reject_result).confirmations_used
        = (confirm_entry_step (confirm_entry_run sample_watch sample_reqs2)
        "ab12cd34" reject_result).max_confirmations) := by
  have hrun := watch_confirmations_bounded sample_watch sample_reqs3
    "ab12cd34" reject_result (by decide)
  have hstep := watch_confirmations_bounded
    (confirm_entry_run sample_watch sample_reqs2) [] "ab12cd34"
    reject_result (by decide)
  exact ⟨by decide, hrun.1,
    hstep.2 (by decide) (by decide) (by decide) (by decide) (by decide)⟩

/-- Claim C7: a transient or parse-error Tier-3 result (reasoning
starting with "Error:" or "Parse failed") never changes
confirmations_used; confirmations_used is incremented exactly when the
watch is the addressed active one with attempts remaining and the result
is a real verdict; and the analyzer's parse-failure and exception
results are classified transient by the endpoint's test. -/
theorem transient_errors_not_counted (w : WatchTrade) (tid : String)
    (r : ConfirmResult) :
    (is_transient_error r.reasoning = true →
      (confirm_entry_step w tid r).confirmations_used
        = w.confirmations_used) ∧
    ((confirm_entry_step w tid r).confirmations_used
        = w.confirmations_used + 1 ↔
      (w.id = tid ∧ w.status = "watching" ∧
        w.confirmations_used < w.max_confirmations ∧
        is_transient_error r.reasoning = false)) ∧
    (∀ api_key message : String, api_key ≠ "" →
      is_transient_error
          (confirm_entry api_key HaikuOutcome.parseFailed).reasoning = true ∧
      is_transient_error
          (confirm_entry api_key
            (HaikuOutcome.apiError message)).reasoning = true) := by
  refine ⟨?_, ?_, ?_⟩
  · intro ht
    rw [confirm_entry_step_used_eq]
    simp [ht]
  · rw [confirm_entry_step_used_eq]
    split
    · next h => simp [h]
    · next h =>
        constructor
        · intro habs; omega
        · intro hc; exact absurd hc h
  · intro api_key message hk
    constructor
    · have : (confirm_entry api_key HaikuOutcome.parseFailed).reasoning
          = "Parse failed — skipping for safety" := by
        simp [confirm_entry, hk]
      rw [this]
      decide
    · have hre : (confirm_entry api_key
          (HaikuOutcome.apiError message)).reasoning
          = "Error: " ++ message := by
        simp [confirm_entry, hk]
      rw [hre]
      have hpre : pyStartsWith ("Error: " ++ message) "Error:" = true := by
        unfold pyStartsWith
        rw [String.data_append]
        rfl
      simp [is_transient_error, hpre]

/-- Witness for C7: a transient "Error: overloaded" result leaves the
sample watch's counter at 0, a real rejection takes it to 1, and the
analyzer failure outputs are classified transient under the key
"sk-test". -/
theorem transient_errors_not_counted_witness :
    (is_transient_error transient_result.reasoning = true ∧
      (confirm_entry_step sample_watch "ab12cd34"
        transient_result).confirmations_used
        = sample_watch.confirmations_used) ∧
    (confirm_entry_step sample_watch "ab12cd34"
        reject_result).confirmations_used
      = sample_watch.confirmations_used + 1 ∧
    (("sk-test" : String) ≠ "" ∧
      is_transient_error
        (confirm_entry "sk-test" HaikuOutcome.parseFailed).reasoning = true ∧
      is_transient_error
        (confirm_entry "sk-test"
          (HaikuOutcome.apiError "overloaded")).reasoning = true) := by
  refine ⟨⟨by decide, ?_⟩, ?_, by decide, ?_, ?_⟩
  · exact (transient_errors_not_counted sample_watch "ab12cd34"
      transient_result).1 (by decide)
  · exact (transient_errors_not_counted sample_watch "ab12cd34"
      reject_result).2.1.mpr ⟨by decide, by decide, by decide, by decide⟩
  · exact ((transient_errors_not_counted sample_watch "ab12cd34"
      reject_result).2.2 "sk-test" "overloaded" (by decide)).1
  · exact ((transient_errors_not_counted sample_watch "ab12cd34"
      reject_result).2.2 "sk-test" "overloaded" (by decide)).2

/-- Claim C9: when a key is configured, any request to a path other than
/health, the Telegram webhook and public/* whose X-API-Key header is
absent or wrong is answered 401 by the middleware, which returns without
invoking call_next, so no handler runs. -/
theorem missing_or_wrong_api_key_rejected (config_api_key path : String)
    (header_api_key : Option String) (hk : config_api_key ≠ "")
    (hpath : ¬(path = "/health" ∨ path = "/webhook/telegram"
      ∨ pyStartsWith path "/public/"))
    (hwrong : header_api_key.getD "" ≠ config_api_key) :
    verify_api_key config_api_key path header_api_key
      = AuthDecision.reject401 := by
  simp [verify_api_key, hk, hpath, hwrong]

/-- Witness for C9: a headerless request to /analyze under the
configured key "secret" is rejected. -/
theorem missing_or_wrong_api_key_rejected_witness :
    ("secret" : String) ≠ "" ∧
    ¬(("/analyze" : String) = "/health" ∨ ("/analyze" : String) = "/webhook/telegram"
      ∨ pyStartsWith "/analyze" "/public/") ∧
    (Option.getD (none : Option String) "" ≠ "secret") ∧
    verify_api_key "secret" "/analyze" none = AuthDecision.reject401 := by
  exact ⟨by decide, by decide, by decide,
    missing_or_wrong_api_key_rejected "secret" "/analyze" none (by decide)
      (by decide) (by decide)⟩

/-- Claim C5: a setup is auto-queued iff its parsed checklist score
reaches the threshold 7 and the risk gate allows it; a parsed score
below 4 never queues; and the gate applies news window, daily drawdown,
max open trades and currency correlation in that order with the first
denial winning. -/
theorem auto_queue_iff_checklist_and_gate (symbol : String)
    (setups : List TradeSetup) (news : NewsCheck) (daily_pnl : ℚ)
    (account_balance : Option ℚ) (open_trades : List OpenTrade)
    (i : Nat) (s : TradeSetup) :
    (((i, s) ∈ auto_queue_selected setups (fun st =>
        (check_risk_filters symbol st news daily_pnl account_balance
          open_trades).1)) ↔
      (setups[i]? = some s ∧
        AUTO_QUEUE_MIN_CHECKLIST ≤ parse_checklist_score s.checklist_score ∧
        (check_risk_filters symbol s news daily_pnl account_balance
          open_trades).1 = true)) ∧
    (parse_checklist_score s.checklist_score < 4 →
      (i, s) ∉ auto_queue_selected setups (fun st =>
        (check_risk_filters symbol st news daily_pnl account_balance
          open_trades).1)) ∧
    (news.blocked = true →
      check_risk_filters symbol s news daily_pnl account_balance open_trades
        = (false, RiskReason.news news.event_title)) ∧
    (news.blocked = false →
      drawdown_exceeded daily_pnl account_balance = true →
      check_risk_filters symbol s news daily_pnl account_balance open_trades
        = (false, RiskReason.drawdown)) ∧
    (news.blocked = false →
      drawdown_exceeded daily_pnl account_balance = false →
      MAX_OPEN_TRADES ≤ open_trades.length →
      check_risk_filters symbol s news daily_pnl account_balance open_trades
        = (false, RiskReason.maxTrades open_trades.length)) ∧
    (news.blocked = false →
      drawdown_exceeded daily_pnl account_balance = false →
      open_trades.length < MAX_OPEN_TRADES →
      ∀ warning,
        check_correlation_conflict open_trades symbol s.bias = some warning →
        check_risk_filters symbol s news daily_pnl account_balance open_trades
          = (false, RiskReason.correlation warning)) ∧
    (news.blocked = false →
      drawdown_exceeded daily_pnl account_balance = false →
      open_trades.length < MAX_OPEN_TRADES →
      check_correlation_conflict open_trades symbol s.bias = none →
      check_risk_filters symbol s news daily_pnl account_balance open_trades
        = (true, RiskReason.allowed)) := by
  have hiff : ((i, s) ∈ auto_queue_selected setups (fun st =>
      (check_risk_filters symbol st news daily_pnl account_balance
        open_trades).1)) ↔
      (setups[i]? = some s ∧
        AUTO_QUEUE_MIN_CHECKLIST ≤ parse_checklist_score s.checklist_score ∧
        (check_risk_filters symbol s news daily_pnl account_balance
          open_trades).1 = true) := by
    simp [auto_queue_selected, List.mem_filter,
      List.mk_mem_enum_iff_getElem?, Bool.and_eq_true, decide_eq_true_eq,
      and_assoc]
  refine ⟨hiff, ?_, ?_, ?_, ?_, ?_, ?_⟩
  · intro h4 hmem
    have h7 : (7 : Int) ≤ parse_checklist_score s.checklist_score :=
      (hiff.mp hmem).2.1
    omega
  · intro hb
    simp [check_risk_filters, hb]
  · intro hb hdd
    simp [check_risk_filters, hb, hdd]
  · intro hb hdd hlen
    simp [check_risk_filters, hb, hdd, hlen]
  · intro hb hdd hlen warning hw
    simp [check_risk_filters, hb, hdd, not_le.mpr hlen, hw]
  · intro hb hdd hlen hnone
    simp [check_risk_filters, hb, hdd, not_le.mpr hlen, hnone]

/-- Witness for C5: the 10/12 setup is auto-queued on a quiet day with
no open trades; the 3/12 setup is not; and each gate rule denies first
on a concrete state exercising it. -/
theorem auto_queue_iff_checklist_and_gate_witness :
    ((0, sample_setup) ∈ auto_queue_selected [sample_setup] (fun st =>
        (check_risk_filters "GBPJPY" st sample_news_ok 0 none []).1)) ∧
    ((0, sample_low_setup) ∉ auto_queue_selected [sample_low_setup]
      (fun st =>
        (check_risk_filters "GBPJPY" st sample_news_ok 0 none []).1)) ∧
    (check_risk_filters "GBPJPY" sample_setup sample_news_blocked 0 none []
        = (false, RiskReason.news "NFP")) ∧
    (check_risk_filters "GBPJPY" sample_setup sample_news_ok (-100)
        (some 100) [] = (false, RiskReason.drawdown)) ∧
    (check_risk_filters "GBPJPY" sample_setup sample_news_ok 0 none
        [sample_open_gbpjpy, { symbol := "EURUSD", bias := "short" }]
        = (false, RiskReason.maxTrades 2)) ∧
    (check_risk_filters "GBPUSD" sample_setup sample_news_ok 0 none
        [sample_open_gbpjpy]
        = (false, RiskReason.correlation
            "Correlation risk: GBP already long via GBPJPY")) ∧
    (check_risk_filters "GBPJPY" sample_setup sample_news_ok 0 none []
        = (true, RiskReason.allowed)) := by
  have hdd : drawdown_exceeded (-100) (some 100) = true := by
    norm_num [drawdown_exceeded, MAX_DAILY_DRAWDOWN_PCT]
  refine ⟨?_, ?_, ?_, ?_, ?_, ?_, ?_⟩
  · exact (auto_queue_iff_checklist_and_gate "GBPJPY" [sample_setup]
      sample_news_ok 0 none [] 0 sample_setup).1.mpr
      ⟨by decide, by decide, by decide⟩
  · exact (auto_queue_iff_checklist_and_gate "GBPJPY" [sample_low_setup]
      sample_news_ok 0 none [] 0 sample_low_setup).2.1 (by decide)
  · exact (auto_queue_iff_checklist_and_gate "GBPJPY" [] sample_news_blocked
      0 none [] 0 sample_setup).2.2.1 (by decide)
  · exact (auto_queue_iff_checklist_and_gate "GBPJPY" [] sample_news_ok
      (-100) (some 100) [] 0 sample_setup).2.2.2.1 (by decide) hdd
  · exact (auto_queue_iff_checklist_and_gate "GBPJPY" [] sample_news_ok 0
      none [sample_open_gbpjpy, { symbol := "EURUSD", bias := "short" }] 0
      sample_setup).2.2.2.2.1 (by decide) (by decide) (by decide)
  · exact (auto_queue_iff_checklist_and_gate "GBPUSD" [] sample_news_ok 0
      none [sample_open_gbpjpy] 0 sample_setup).2.2.2.2.2.1 (by decide)
      (by decide) (by decide)
      "Correlation risk: GBP already long via GBPJPY" (by decide)
  · exact (auto_queue_iff_checklist_and_gate "GBPJPY" [] sample_news_ok 0
      none [] 0 sample_setup).2.2.2.2.2.2 (by decide) (by decide)
      (by decide) (by decide)

theorem mem_get_open_currency_exposure (open_trades : List OpenTrade)
    (cur : String) (e : ExposureEntry) :
    e ∈ get_open_currency_exposure open_trades cur ↔
      ∃ t ∈ open_trades, (cur, e) ∈ trade_exposures t := by
  unfold get_open_currency_exposure
  constructor
  · intro h
    obtain ⟨p, hp, rfl⟩ := List.mem_map.mp h
    obtain ⟨hpmem, hpcur⟩ := List.mem_filter.mp hp
    obtain ⟨l, hl, hpl⟩ := List.mem_flatten.mp hpmem
    obtain ⟨t, ht, rfl⟩ := List.mem_map.mp hl
    have hcur : p.1 = cur := by simpa using hpcur
    refine ⟨t, ht, ?_⟩
    obtain ⟨a, b⟩ := p
    cases hcur
    exact hpl
  · rintro ⟨t, ht, hmem⟩
    apply List.mem_map.mpr
    refine ⟨(cur, e), List.mem_filter.mpr ⟨?_, by simp⟩, rfl⟩
    exact List.mem_flatten.mpr
      ⟨trade_exposures t, List.mem_map.mpr ⟨t, ht, rfl⟩, hmem⟩

theorem trade_exposures_entry_symbol (t : OpenTrade)
    (p : String × ExposureEntry) (hp : p ∈ trade_exposures t) :
    p.2.symbol = t.symbol := by
  unfold trade_exposures at hp
  split at hp <;>
    simp only [List.mem_cons, List.not_mem_nil, or_false] at hp <;>
    rcases hp with rfl | rfl <;> rfl

theorem trade_exposures_of_pair (symbol bias : String) :
    trade_exposures { symbol := symbol, bias := bias }
      = [(pyTake symbol 3,
          { symbol := symbol,
            dir := if bias = "long" then "long" else "short" }),
         (pyDrop symbol 3,
          { symbol := symbol,
            dir := if bias = "long" then "short" else "long" })] := by
  unfold trade_exposures
  split <;> next h => simp_all

theorem ite_isEmpty_ne_none (c : List String) (m : String) :
    (if c.isEmpty then (none : Option String) else some m) ≠ none ↔
      c ≠ [] := by
  split
  · next h => simp_all [List.isEmpty_eq_true]
  · next h => simp_all [List.isEmpty_eq_true]

theorem conflict_filterMap_ne_nil (l : List ExposureEntry)
    (symbol d : String) (g : ExposureEntry → String) :
    (l.filterMap (fun e =>
        if e.symbol = symbol then none
        else if e.dir = d then some (g e) else none) ≠ []) ↔
      ∃ e ∈ l, e.symbol ≠ symbol ∧ e.dir = d := by
  rw [Ne, List.filterMap_eq_nil_iff]
  constructor
  · intro h
    push_neg at h
    obtain ⟨e, he, hfe⟩ := h
    by_cases hs : e.symbol = symbol
    · rw [if_pos hs] at hfe
      exact absurd rfl hfe
    · by_cases hd : e.dir = d
      · exact ⟨e, he, hs, hd⟩
      · rw [if_neg hs, if_neg hd] at hfe
        exact absurd rfl hfe
  · rintro ⟨e, he, hs, hd⟩ hall
    have := hall e he
    rw [if_neg hs, if_pos hd] at this
    exact absurd this (by simp)

theorem check_correlation_conflict_ne_none (open_trades : List OpenTrade)
    (symbol bias : String) :
    check_correlation_conflict open_trades symbol bias ≠ none ↔
      ((∃ e ∈ get_open_currency_exposure open_trades (pyTake symbol 3),
          e.symbol ≠ symbol ∧
          e.dir = (if bias = "long" then "long" else "short")) ∨
       (∃ e ∈ get_open_currency_exposure open_trades (pyDrop symbol 3),
          e.symbol ≠ symbol ∧
          e.dir = (if bias = "long" then "short" else "long"))) := by
  unfold check_correlation_conflict
  refine (ite_isEmpty_ne_none _ _).trans ?_
  constructor
  · intro hne
    rcases not_and_or.mp
        (fun hand => hne (List.append_eq_nil.mpr hand)) with hA | hB
    · exact Or.inl ((conflict_filterMap_ne_nil _ _ _ _).mp hA)
    · exact Or.inr ((conflict_filterMap_ne_nil _ _ _ _).mp hB)
  · rintro (h | h) <;> intro hnil <;>
      obtain ⟨hA, hB⟩ := List.append_eq_nil.mp hnil
    · exact ((conflict_filterMap_ne_nil _ _ _ _).mpr h) hA
    · exact ((conflict_filterMap_ne_nil _ _ _ _).mpr h) hB

/-- Claim C8: the correlation check denies a candidate (symbol, bias)
exactly when some open trade on a different symbol implies the same
directional exposure to the candidate's base or quote currency; in
particular, when every open trade is on the candidate's own symbol the
check never denies, regardless of direction. -/
theorem correlation_conflict_iff_cross_symbol (open_trades : List OpenTrade)
    (symbol bias : String) :
    (check_correlation_conflict open_trades symbol bias ≠ none ↔
      ∃ t ∈ open_trades, implies_same_direction_exposure symbol bias t) ∧
    ((∀ t ∈ open_trades, t.symbol = symbol) →
      check_correlation_conflict open_trades symbol bias = none) := by
  have hmain : check_correlation_conflict open_trades symbol bias ≠ none ↔
      ∃ t ∈ open_trades, implies_same_direction_exposure symbol bias t := by
    rw [check_correlation_conflict_ne_none]
    constructor
    · rintro (⟨e, he, hsym, hdir⟩ | ⟨e, he, hsym, hdir⟩)
      · obtain ⟨t, ht, hmem⟩ :=
          (mem_get_open_currency_exposure open_trades (pyTake symbol 3)
            e).mp he
        have hes : e.symbol = t.symbol :=
          trade_exposures_entry_symbol t (pyTake symbol 3, e) hmem
        refine ⟨t, ht, fun h => hsym (hes.symm ▸ h), ?_⟩
        refine ⟨(pyTake symbol 3, e), hmem, ?_⟩
        refine ⟨(pyTake symbol 3,
          { symbol := symbol,
            dir := if bias = "long" then "long" else "short" }), ?_, rfl,
          hdir⟩
        rw [trade_exposures_of_pair]
        exact List.mem_cons_self _ _
      · obtain ⟨t, ht, hmem⟩ :=
          (mem_get_open_currency_exposure open_trades (pyDrop symbol 3)
            e).mp he
        have hes : e.symbol = t.symbol :=
          trade_exposures_entry_symbol t (pyDrop symbol 3, e) hmem
        refine ⟨t, ht, fun h => hsym (hes.symm ▸ h), ?_⟩
        refine ⟨(pyDrop symbol 3, e), hmem, ?_⟩
        refine ⟨(pyDrop symbol 3,
          { symbol := symbol,
            dir := if bias = "long" then "short" else "long" }), ?_, rfl,
          hdir⟩
        rw [trade_exposures_of_pair]
        exact List.mem_cons_of_mem _ (List.mem_cons_self _ _)
    · rintro ⟨t, ht, htsym, p, hp, q, hq, hcur, hdir⟩
      rw [trade_exposures_of_pair] at hq
      simp only [List.mem_cons, List.not_mem_nil, or_false] at hq
      have hes : p.2.symbol = t.symbol :=
        trade_exposures_entry_symbol t p hp
      obtain ⟨pc, pe⟩ := p
      rcases hq with rfl | rfl
      · left
        refine ⟨pe, ?_, ?_, ?_⟩
        · apply (mem_get_open_currency_exposure open_trades
            (pyTake symbol 3) pe).mpr
          refine ⟨t, ht, ?_⟩
          have hpc : pc = pyTake symbol 3 := hcur
          rw [← hpc]
          exact hp
        · rw [hes]
          exact htsym
        · exact hdir
      · right
        refine ⟨pe, ?_, ?_, ?_⟩
        · apply (mem_get_open_currency_exposure open_trades
            (pyDrop symbol 3) pe).mpr
          refine ⟨t, ht, ?_⟩
          have hpc : pc = pyDrop symbol 3 := hcur
          rw [← hpc]
          exact hp
        · rw [hes]
          exact htsym
        · exact hdir
  refine ⟨hmain, ?_⟩
  intro hall
  by_contra hne
  obtain ⟨t, ht, hconf⟩ := hmain.mp hne
  exact hconf.1 (hall t ht)

/-- Witness for C8: with only a long GBPJPY open, a GBPUSD long
candidate is denied (both imply long GBP via different symbols) while a
second GBPJPY candidate — even in the same direction — is not denied by
correlation. -/
theorem correlation_conflict_iff_cross_symbol_witness :
    (check_correlation_conflict [sample_open_gbpjpy] "GBPUSD" "long"
        ≠ none) ∧
    ((∀ t ∈ [sample_open_gbpjpy], t.symbol = "GBPJPY") ∧
      check_correlation_conflict [sample_open_gbpjpy] "GBPJPY" "long"
        = none) := by
  refine ⟨?_, by decide, ?_⟩
  · exact (correlation_conflict_iff_cross_symbol [sample_open_gbpjpy]
      "GBPUSD" "long").1.mpr
      ⟨sample_open_gbpjpy, by decide,
        ⟨by decide,
          ("GBP", { symbol := "GBPJPY", dir := "long" }), by decide,
          ("GBP", { symbol := "GBPUSD", dir := "long" }), by decide,
          by decide, by decide⟩⟩
  · exact (correlation_conflict_iff_cross_symbol [sample_open_gbpjpy]
      "GBPJPY" "long").2 (by decide)

/-- Claim C10: auto-queuing a new watch for a symbol that already has a
persisted watching row replaces the old watch only in the in-memory
registry; persist_watch upserts by id only, so the old row survives with
status watching and is never deleted, and load_active_watches can
subsequently return both rows — more than one watching row for the
symbol, violating the at-most-one-active-watch-per-symbol invariant in
the persisted store. -/
theorem replaced_watch_row_persists (mem : String → Option WatchTrade)
    (db : List WatchRow) (old_row : WatchRow) (watch : WatchTrade)
    (watch_json now : String) (hold : old_row ∈ db)
    (hsym : old_row.symbol = watch.symbol)
    (hstatus : old_row.status = "watching")
    (hid : old_row.id ≠ watch.id) :
    ((auto_queue_register mem db watch watch_json now).1 watch.symbol
        = some watch) ∧
    (old_row ∈ (auto_queue_register mem db watch watch_json now).2) ∧
    (old_row.watch_json
        ∈ load_active_watches
            (auto_queue_register mem db watch watch_json now).2) ∧
    (watch_json
        ∈ load_active_watches
            (auto_queue_register mem db watch watch_json now).2) ∧
    (2 ≤ (((auto_queue_register mem db watch watch_json now).2).filter
        (fun r => r.status == "watching"
          && r.symbol == watch.symbol)).length) := by
  have holdmem : old_row
      ∈ (auto_queue_register mem db watch watch_json now).2 := by
    simp only [auto_queue_register, persist_watch]
    apply List.mem_append_left
    exact List.mem_filter.mpr ⟨hold, by simpa using hid⟩
  refine ⟨by simp [auto_queue_register], holdmem, ?_, ?_, ?_⟩
  · unfold load_active_watches
    exact List.mem_map.mpr
      ⟨old_row, List.mem_filter.mpr ⟨holdmem, by simpa using hstatus⟩, rfl⟩
  · unfold load_active_watches
    apply List.mem_map.mpr
    refine ⟨WatchRow.mk watch.id watch.symbol watch_json "watching" now,
      ?_, rfl⟩
    apply List.mem_filter.mpr
    refine ⟨?_, by simp⟩
    simp [auto_queue_register, persist_watch]
  · simp only [auto_queue_register, persist_watch, List.filter_append,
      List.length_append]
    have hmem2 : old_row ∈ ((db.filter
        (fun r => r.id ≠ watch.id)).filter
        (fun r => r.status == "watching" && r.symbol == watch.symbol)) := by
      refine List.mem_filter.mpr ⟨?_, ?_⟩
      · exact List.mem_filter.mpr ⟨hold, by simpa using hid⟩
      · simp [hstatus, hsym]
    have h1 : 1 ≤ ((db.filter (fun r => r.id ≠ watch.id)).filter
        (fun r => r.status == "watching"
          && r.symbol == watch.symbol)).length := by
      have := List.length_pos.mpr (List.ne_nil_of_mem hmem2)
      omega
    have h2 : (([WatchRow.mk watch.id watch.symbol watch_json "watching"
        now]).filter
        (fun r => r.status == "watching"
          && r.symbol == watch.symbol)).length = 1 := by
      simp
    omega

/-- Witness for C10: with the old GBPJPY row persisted and watching,
registering the sample watch keeps the old row, and both rows are
returned by load_active_watches. -/
theorem replaced_watch_row_persists_witness :
    ((auto_queue_register (fun _ => none) [sample_old_row] sample_watch
        "json-new" "T1").1 "GBPJPY" = some sample_watch) ∧
    (sample_old_row ∈ (auto_queue_register (fun _ => none)
        [sample_old_row] sample_watch "json-new" "T1").2) ∧
    ("json-old" ∈ load_active_watches (auto_queue_register (fun _ => none)
        [sample_old_row] sample_watch "json-new" "T1").2) ∧
    ("json-new" ∈ load_active_watches (auto_queue_register (fun _ => none)
        [sample_old_row] sample_watch "json-new" "T1").2) ∧
    (2 ≤ (((auto_queue_register (fun _ => none) [sample_old_row]
        sample_watch "json-new" "T1").2).filter
        (fun r => r.status == "watching"
          && r.symbol == sample_watch.symbol)).length) := by
  exact replaced_watch_row_persists (fun _ => none) [sample_old_row]
    sample_old_row sample_watch "json-new" "T1" (by decide) (by decide)
    (by decide) (by decide)
